import Mathlib

/-!
Verification of the restart-monitor component of the CLIProxyAPI key portal
(`src/key-portal/app.py`): restart detection from monotonic-counter resets
(`detect_cliproxy_restart`), snapshot recovery (`import_cliproxy_snapshot`),
and the periodic cycle that drives them (`broadcast_usage_update`).

The embedding is shallow: the Python global `_cliproxy_state` dict becomes an
explicit `CliproxyState` record threaded through each function; `datetime.now()`
becomes an explicit `now : Nat` argument; network and filesystem effects become
explicit environment records describing what the outside world returns.
-/

/-- The `_cliproxy_state` global dict (app.py lines 453-458): baseline counters,
optional time of last observation, and the number of detected restarts.
Timestamps are abstracted as `Nat`. -/
structure CliproxyState where
  last_total_tokens : Nat
  last_total_requests : Nat
  last_check_time : Option Nat
  restart_count : Nat
deriving DecidableEq

/-- The initial value of `_cliproxy_state` at process start (app.py 453-458). -/
def initState : CliproxyState :=
  { last_total_tokens := 0
    last_total_requests := 0
    last_check_time := none
    restart_count := 0 }

/-- `detect_cliproxy_restart(current_tokens, current_requests)` (app.py 793-849).
Returns the reported Boolean together with the updated `_cliproxy_state`.
First branch: no prior observation, store baseline, return False.
Otherwise a restart is reported iff either counter strictly decreased; the
baseline and check time are updated unconditionally, and `restart_count` is
incremented only on the restart branch. -/
def detect_cliproxy_restart (s : CliproxyState)
    (current_tokens current_requests now : Nat) : Bool × CliproxyState :=
  match s.last_check_time with
  | none =>
      (false,
       { last_total_tokens := current_tokens
         last_total_requests := current_requests
         last_check_time := some now
         restart_count := s.restart_count })
  | some _ =>
      let tokens_decreased : Bool := decide (current_tokens < s.last_total_tokens)
      let requests_decreased : Bool := decide (current_requests < s.last_total_requests)
      if tokens_decreased || requests_decreased then
        (true,
         { last_total_tokens := current_tokens
           last_total_requests := current_requests
           last_check_time := some now
           restart_count := s.restart_count + 1 })
      else
        (false,
         { last_total_tokens := current_tokens
           last_total_requests := current_requests
           last_check_time := some now
           restart_count := s.restart_count })

/-- Fold a sequence of observations `(current_tokens, current_requests, now)`
through `detect_cliproxy_restart`, keeping the final state. -/
def runObservations (s : CliproxyState) (calls : List (Nat × Nat × Nat)) :
    CliproxyState :=
  calls.foldl (fun st c => (detect_cliproxy_restart st c.1 c.2.1 c.2.2).2) s

/-- Number of calls in a sequence of observations that report a restart,
threading the state exactly as `runObservations` does. -/
def countRestarts (s : CliproxyState) : List (Nat × Nat × Nat) → Nat
  | [] => 0
  | c :: rest =>
      let d := detect_cliproxy_restart s c.1 c.2.1 c.2.2
      (if d.1 then 1 else 0) + countRestarts d.2 rest

/-- The parts of the snapshot JSON that `import_cliproxy_snapshot` reads
(app.py 758-761): `exported_at` plus the usage totals. They are only logged. -/
structure Snapshot where
  exported_at : String
  total_tokens : Nat
  total_requests : Nat
deriving DecidableEq

/-- The fields of the reply to `POST /v0/management/usage/import` that the
code reads (app.py 775-777). They are only logged. -/
structure ImportReply where
  added : Nat
  skipped : Nat
  total_requests : Nat
deriving DecidableEq

/-- What loading the snapshot file can do (app.py 750-756): the file may be
absent (`os.path.exists` is false), reading or parsing it may raise (caught by
the surrounding `except`), or it yields a snapshot. -/
inductive SnapshotLoad where
  | missing
  | corrupt
  | loaded (snap : Snapshot)
deriving DecidableEq

/-- Environment for one run of `import_cliproxy_snapshot`: the outcome of
loading the snapshot file, and the reply of the upstream import endpoint
(`none` models `call_management_api` returning an error, which also covers a
raised exception inside it, app.py 466-479). -/
structure SnapshotEnv where
  load : SnapshotLoad
  importReply : Option ImportReply
deriving DecidableEq

/-- Result of one run of `import_cliproxy_snapshot`: the Python return value,
the `_cliproxy_state` afterwards, and whether the upstream import endpoint was
called at all. -/
structure ImportRun where
  ret : Bool
  state : CliproxyState
  importCalled : Bool
deriving DecidableEq

/-- `import_cliproxy_snapshot()` (app.py 747-790). Returns `False` when the
snapshot file is missing (without calling the import endpoint), `False` when
loading raises (caught by the `except`), `False` when the import endpoint
reports an error, and `True` on success. The Python function never references
`_cliproxy_state`, so the state is threaded through unchanged in every
branch. -/
def import_cliproxy_snapshot (env : SnapshotEnv) (s : CliproxyState) :
    ImportRun :=
  match env.load with
  | SnapshotLoad.missing => { ret := false, state := s, importCalled := false }
  | SnapshotLoad.corrupt => { ret := false, state := s, importCalled := false }
  | SnapshotLoad.loaded _ =>
      match env.importReply with
      | none => { ret := false, state := s, importCalled := true }
      | some _ => { ret := true, state := s, importCalled := true }

/-- The usage fields read from `GET /v0/management/usage`
(app.py 1474-1476). -/
structure UsageReply where
  total_tokens : Nat
  total_requests : Nat
deriving DecidableEq

/-- The `_last_usage_state` global used by `broadcast_usage_update` to decide
whether to emit a WebSocket event (app.py 1500-1503). -/
structure LastUsageState where
  total_tokens : Nat
  total_requests : Nat
deriving DecidableEq

/-- Environment for one run of `broadcast_usage_update`: the reply of the
initial usage fetch (`none` models a transport or parse error), the snapshot
environment used if recovery is triggered, the reply of the post-import
re-read, and the current time. -/
structure BroadcastEnv where
  fetch : Option UsageReply
  snap : SnapshotEnv
  refetch : Option UsageReply
  now : Nat
deriving DecidableEq

/-- Result of one run of `broadcast_usage_update`: the `_cliproxy_state` and
`_last_usage_state` afterwards, plus flags recording whether
`detect_cliproxy_restart` was invoked, whether the import endpoint was called,
and whether a WebSocket broadcast was emitted. -/
structure BroadcastResult where
  cliproxy : CliproxyState
  lastUsage : LastUsageState
  detectCalled : Bool
  importCalled : Bool
  didBroadcast : Bool
deriving DecidableEq

/-- `broadcast_usage_update()` (app.py 1466-1519). If the usage fetch errors,
the function returns at once (app.py 1471-1472). Otherwise it runs
`detect_cliproxy_restart`; on a reported restart it runs
`import_cliproxy_snapshot`, and after a successful import re-reads the usage
totals, the re-read values replacing the local `current_tokens` and
`current_requests` used for the WebSocket broadcast (app.py 1487-1492) without
touching `_cliproxy_state`. Finally `_last_usage_state` is updated and an
event emitted only when the current pair differs from it. -/
def broadcast_usage_update (env : BroadcastEnv) (s : CliproxyState)
    (lu : LastUsageState) : BroadcastResult :=
  match env.fetch with
  | none =>
      { cliproxy := s, lastUsage := lu, detectCalled := false
        importCalled := false, didBroadcast := false }
  | some u =>
      let d := detect_cliproxy_restart s u.total_tokens u.total_requests env.now
      let step : CliproxyState × UsageReply × Bool :=
        if d.1 then
          let run := import_cliproxy_snapshot env.snap d.2
          if run.ret then
            match env.refetch with
            | some u2 => (run.state, u2, run.importCalled)
            | none => (run.state, u, run.importCalled)
          else (run.state, u, run.importCalled)
        else (d.2, u, false)
      let cur := step.2.1
      let changed : Bool :=
        decide (cur.total_tokens ≠ lu.total_tokens) ||
        decide (cur.total_requests ≠ lu.total_requests)
      { cliproxy := step.1
        lastUsage :=
          if changed then
            { total_tokens := cur.total_tokens
              total_requests := cur.total_requests }
          else lu
        detectCalled := true
        importCalled := step.2.2
        didBroadcast := changed }

/-- Every branch of `detect_cliproxy_restart` sets `last_check_time` to
`some now`. -/
theorem detect_sets_check_time (s : CliproxyState) (t r now : Nat) :
    (detect_cliproxy_restart s t r now).2.last_check_time = some now := by
  unfold detect_cliproxy_restart
  cases s.last_check_time <;> simp <;> split <;> rfl

/-- Every branch of `detect_cliproxy_restart` stores the observed pair as the
new baseline. -/
theorem detect_sets_baseline (s : CliproxyState) (t r now : Nat) :
    (detect_cliproxy_restart s t r now).2.last_total_tokens = t ∧
    (detect_cliproxy_restart s t r now).2.last_total_requests = r := by
  unfold detect_cliproxy_restart
  cases s.last_check_time <;> simp <;> split <;> simp

/-- `import_cliproxy_snapshot` leaves `_cliproxy_state` unchanged in every
branch: the Python function never references it. -/
theorem import_preserves_state (env : SnapshotEnv) (s : CliproxyState) :
    (import_cliproxy_snapshot env s).state = s := by
  obtain ⟨l, ir⟩ := env
  cases l <;> cases ir <;> rfl

/-- Once `last_check_time` is set, no sequence of observations can unset it. -/
theorem runObservations_keeps_some (calls : List (Nat × Nat × Nat)) :
    ∀ s : CliproxyState, s.last_check_time ≠ none →
      (runObservations s calls).last_check_time ≠ none := by
  induction calls with
  | nil => intro s h; exact h
  | cons c rest ih =>
      intro s _
      simp only [runObservations, List.foldl_cons]
      exact ih _ (by rw [detect_sets_check_time]; simp)

/-- C1: with a prior observation present (`last_check_time` not `None`),
`detect_cliproxy_restart` reports a restart iff the current tokens are
strictly below the stored `last_total_tokens` or the current requests are
strictly below the stored `last_total_requests`; in particular with baseline
(100, 50) the observation (80, 60) reports a restart and (150, 70) does
not. -/
theorem detect_restart_iff_counter_decrease :
    (∀ (s : CliproxyState) (t r now : Nat), s.last_check_time.isSome = true →
      ((detect_cliproxy_restart s t r now).1 = true ↔
        t < s.last_total_tokens ∨ r < s.last_total_requests)) ∧
    (detect_cliproxy_restart ⟨100, 50, some 0, 0⟩ 80 60 1).1 = true ∧
    (detect_cliproxy_restart ⟨100, 50, some 0, 0⟩ 150 70 1).1 = false := by
  refine ⟨?_, by decide, by decide⟩
  intro s t r now h
  obtain ⟨v, hv⟩ := Option.isSome_iff_exists.mp h
  unfold detect_cliproxy_restart
  rw [hv]
  split <;> simp_all
  split <;> simp_all

/-- C1 witness: the characterization applied at the concrete baseline
(100, 50) with observation (80, 60). -/
theorem detect_restart_iff_counter_decrease_witness :
    (detect_cliproxy_restart ⟨100, 50, some 0, 0⟩ 80 60 1).1 = true :=
  (detect_restart_iff_counter_decrease.1 ⟨100, 50, some 0, 0⟩ 80 60 1
    (by decide)).mpr (by decide)

/-- C2: after every call to `detect_cliproxy_restart`, on every branch, the
stored baseline equals that call's input pair; consequently along any sequence
of observations the baseline after each call equals the most recent input
pair. -/
theorem observe_stores_input_as_baseline :
    (∀ (s : CliproxyState) (t r now : Nat),
      (detect_cliproxy_restart s t r now).2.last_total_tokens = t ∧
      (detect_cliproxy_restart s t r now).2.last_total_requests = r) ∧
    (∀ (s : CliproxyState) (calls : List (Nat × Nat × Nat))
      (c : Nat × Nat × Nat),
      (runObservations s (calls ++ [c])).last_total_tokens = c.1 ∧
      (runObservations s (calls ++ [c])).last_total_requests = c.2.1) := by
  refine ⟨detect_sets_baseline, ?_⟩
  intro s calls c
  simp only [runObservations, List.foldl_append, List.foldl_cons, List.foldl_nil]
  exact detect_sets_baseline _ _ _ _

/-- C3: on a state with `last_check_time = None`, the first call to
`detect_cliproxy_restart` returns `False` and stores the input values as the
baseline, regardless of the input values. -/
theorem first_observation_never_restarts (s : CliproxyState) (t r now : Nat)
    (h : s.last_check_time = none) :
    (detect_cliproxy_restart s t r now).1 = false ∧
    (detect_cliproxy_restart s t r now).2.last_total_tokens = t ∧
    (detect_cliproxy_restart s t r now).2.last_total_requests = r := by
  unfold detect_cliproxy_restart
  rw [h]
  exact ⟨rfl, rfl, rfl⟩

/-- C3 witness: the first observation on the initial state with input
(123456, 789). -/
theorem first_observation_never_restarts_witness :
    (detect_cliproxy_restart initState 123456 789 5).1 = false ∧
    (detect_cliproxy_restart initState 123456 789 5).2.last_total_tokens
      = 123456 ∧
    (detect_cliproxy_restart initState 123456 789 5).2.last_total_requests
      = 789 :=
  first_observation_never_restarts initState 123456 789 5 rfl

/-- C4: `restart_count` grows by exactly 1 on each call reporting a restart
and is unchanged on every other call; hence across any sequence of
observations it equals its initial value plus the number of reported restarts
(never decreasing, never skipping a value). -/
theorem restart_count_increments_exactly_on_restart :
    (∀ (s : CliproxyState) (t r now : Nat),
      (detect_cliproxy_restart s t r now).2.restart_count =
        s.restart_count +
          (if (detect_cliproxy_restart s t r now).1 then 1 else 0)) ∧
    (∀ (s : CliproxyState) (calls : List (Nat × Nat × Nat)),
      (runObservations s calls).restart_count =
        s.restart_count + countRestarts s calls) := by
  have step : ∀ (s : CliproxyState) (t r now : Nat),
      (detect_cliproxy_restart s t r now).2.restart_count =
        s.restart_count +
          (if (detect_cliproxy_restart s t r now).1 then 1 else 0) := by
    intro s t r now
    unfold detect_cliproxy_restart
    cases s.last_check_time <;> simp <;> split <;> simp
  refine ⟨step, ?_⟩
  intro s calls
  induction calls generalizing s with
  | nil => simp [runObservations, countRestarts]
  | cons c rest ih =>
      simp only [runObservations, List.foldl_cons, countRestarts] at *
      rw [ih, step]
      split <;> omega

/-- C5: if the stored baseline already equals the observed pair (X, Y) and an
observation has been made, `detect_cliproxy_restart` reports no restart; in
particular, two consecutive identical observations never report a restart on
the second call. -/
theorem unchanged_input_idempotent :
    (∀ (s : CliproxyState) (X Y now : Nat),
      s.last_check_time.isSome = true → s.last_total_tokens = X →
      s.last_total_requests = Y →
      (detect_cliproxy_restart s X Y now).1 = false) ∧
    (∀ (s : CliproxyState) (X Y n1 n2 : Nat),
      (detect_cliproxy_restart
        (detect_cliproxy_restart s X Y n1).2 X Y n2).1 = false) := by
  have base : ∀ (s : CliproxyState) (X Y now : Nat),
      s.last_check_time.isSome = true → s.last_total_tokens = X →
      s.last_total_requests = Y →
      (detect_cliproxy_restart s X Y now).1 = false := by
    intro s X Y now h hX hY
    obtain ⟨v, hv⟩ := Option.isSome_iff_exists.mp h
    unfold detect_cliproxy_restart
    rw [hv]
    split <;> simp_all
  refine ⟨base, ?_⟩
  intro s X Y n1 n2
  refine base _ X Y n2 ?_ ?_ ?_
  · rw [detect_sets_check_time]; rfl
  · exact (detect_sets_baseline s X Y n1).1
  · exact (detect_sets_baseline s X Y n1).2

/-- C5 witness: with baseline already (42, 7), observing (42, 7) again reports
no restart. -/
theorem unchanged_input_idempotent_witness :
    (detect_cliproxy_restart ⟨42, 7, some 3, 1⟩ 42 7 4).1 = false :=
  unchanged_input_idempotent.1 ⟨42, 7, some 3, 1⟩ 42 7 4 (by decide) rfl rfl

/-- C9: `last_check_time = None` holds iff no observation has ever been made:
the state is created with `last_check_time = None` and zero counters, and a
sequence of observations from the initial state ends with
`last_check_time = None` exactly when the sequence is empty (every branch of
`detect_cliproxy_restart` sets it to a non-`None` value). -/
theorem check_time_none_iff_no_observation :
    initState.last_check_time = none ∧
    initState.last_total_tokens = 0 ∧
    initState.last_total_requests = 0 ∧
    initState.restart_count = 0 ∧
    ∀ calls : List (Nat × Nat × Nat),
      ((runObservations initState calls).last_check_time = none ↔
        calls = []) := by
  refine ⟨rfl, rfl, rfl, rfl, ?_⟩
  intro calls
  cases calls with
  | nil => simp [runObservations, initState]
  | cons c rest =>
      simp only [runObservations, List.foldl_cons]
      constructor
      · intro h
        exact absurd h
          (runObservations_keeps_some rest _
            (by rw [detect_sets_check_time]; simp))
      · intro h; simp at h

/-- C6: when no snapshot file exists, `import_cliproxy_snapshot` returns the
failure value `False` with no further effect: the import endpoint is not
called and `_cliproxy_state` is left untouched. -/
theorem no_snapshot_no_effect (env : SnapshotEnv) (s : CliproxyState)
    (h : env.load = SnapshotLoad.missing) :
    (import_cliproxy_snapshot env s).ret = false ∧
    (import_cliproxy_snapshot env s).state = s ∧
    (import_cliproxy_snapshot env s).importCalled = false := by
  unfold import_cliproxy_snapshot
  rw [h]
  exact ⟨rfl, rfl, rfl⟩

/-- C6 witness: a concrete missing-snapshot environment on a concrete
state. -/
theorem no_snapshot_no_effect_witness :
    (import_cliproxy_snapshot ⟨SnapshotLoad.missing, none⟩
      ⟨10, 20, some 3, 1⟩).ret = false ∧
    (import_cliproxy_snapshot ⟨SnapshotLoad.missing, none⟩
      ⟨10, 20, some 3, 1⟩).state = ⟨10, 20, some 3, 1⟩ ∧
    (import_cliproxy_snapshot ⟨SnapshotLoad.missing, none⟩
      ⟨10, 20, some 3, 1⟩).importCalled = false :=
  no_snapshot_no_effect ⟨SnapshotLoad.missing, none⟩ ⟨10, 20, some 3, 1⟩ rfl

/-- C7 counterexample: `import_cliproxy_snapshot` returns the identical value
`False` both when the snapshot file is missing and when a loaded snapshot is
rejected by the upstream import endpoint, so the return value alone cannot
tell a missing snapshot apart from an upstream-rejected import — the claim's
three mutually distinguishable outcomes do not exist in the code. -/
theorem recovery_outcomes_indistinguishable :
    (import_cliproxy_snapshot ⟨SnapshotLoad.missing, none⟩ initState).ret =
      (import_cliproxy_snapshot
        ⟨SnapshotLoad.loaded ⟨"2024-01-01T00:00:00", 100, 50⟩, none⟩
        initState).ret ∧
    (import_cliproxy_snapshot ⟨SnapshotLoad.missing, none⟩ initState).ret =
      false := by
  exact ⟨rfl, rfl⟩

/-- C7 amended: `import_cliproxy_snapshot` returns a single Boolean, `True`
exactly when a snapshot was loaded and the upstream import succeeded; a
missing snapshot, a corrupt snapshot and a rejected import all map to the same
value `False`, distinguishable only in the logs, not from the return value. -/
theorem recovery_returns_boolean_only :
    ∀ (env : SnapshotEnv) (s : CliproxyState),
      (import_cliproxy_snapshot env s).ret = true ↔
        (∃ snap, env.load = SnapshotLoad.loaded snap) ∧
          env.importReply.isSome = true := by
  intro env s
  obtain ⟨l, ir⟩ := env
  cases l <;> cases ir <;> simp [import_cliproxy_snapshot]

/-- C8: when the usage fetch fails (transport or parse error),
`broadcast_usage_update` leaves the whole prior monitor state unchanged:
`detect_cliproxy_restart` is not invoked, no import happens, no broadcast is
emitted, and both `_cliproxy_state` and `_last_usage_state` are untouched. -/
theorem fetch_failure_skips_cycle (env : BroadcastEnv) (s : CliproxyState)
    (lu : LastUsageState) (h : env.fetch = none) :
    (broadcast_usage_update env s lu).cliproxy = s ∧
    (broadcast_usage_update env s lu).detectCalled = false ∧
    (broadcast_usage_update env s lu).importCalled = false ∧
    (broadcast_usage_update env s lu).lastUsage = lu ∧
    (broadcast_usage_update env s lu).didBroadcast = false := by
  unfold broadcast_usage_update
  rw [h]
  exact ⟨rfl, rfl, rfl, rfl, rfl⟩

/-- C8 witness: a concrete failed fetch on a concrete state. -/
theorem fetch_failure_skips_cycle_witness :
    (broadcast_usage_update ⟨none, ⟨SnapshotLoad.missing, none⟩, none, 9⟩
      ⟨10, 20, some 3, 1⟩ ⟨10, 20⟩).cliproxy = ⟨10, 20, some 3, 1⟩ ∧
    (broadcast_usage_update ⟨none, ⟨SnapshotLoad.missing, none⟩, none, 9⟩
      ⟨10, 20, some 3, 1⟩ ⟨10, 20⟩).detectCalled = false ∧
    (broadcast_usage_update ⟨none, ⟨SnapshotLoad.missing, none⟩, none, 9⟩
      ⟨10, 20, some 3, 1⟩ ⟨10, 20⟩).importCalled = false ∧
    (broadcast_usage_update ⟨none, ⟨SnapshotLoad.missing, none⟩, none, 9⟩
      ⟨10, 20, some 3, 1⟩ ⟨10, 20⟩).lastUsage = ⟨10, 20⟩ ∧
    (broadcast_usage_update ⟨none, ⟨SnapshotLoad.missing, none⟩, none, 9⟩
      ⟨10, 20, some 3, 1⟩ ⟨10, 20⟩).didBroadcast = false :=
  fetch_failure_skips_cycle ⟨none, ⟨SnapshotLoad.missing, none⟩, none, 9⟩
    ⟨10, 20, some 3, 1⟩ ⟨10, 20⟩ rfl

/-- C10: the recovery sequence never mutates the monitor's restart-detection
state: `import_cliproxy_snapshot` leaves `_cliproxy_state` unchanged in every
branch, and the `_cliproxy_state` after a whole `broadcast_usage_update` cycle
is exactly the state left by `detect_cliproxy_restart` (or the prior state
when the fetch failed) — the post-import re-read never updates the baseline,
so after a successful recovery the baseline still holds the post-restart
values and the restored totals are consumed as ordinary growth on the next
observation. -/
theorem recovery_never_mutates_monitor_state :
    (∀ (env : SnapshotEnv) (s : CliproxyState),
      (import_cliproxy_snapshot env s).state = s) ∧
    (∀ (env : BroadcastEnv) (s : CliproxyState) (lu : LastUsageState),
      (broadcast_usage_update env s lu).cliproxy =
        match env.fetch with
        | none => s
        | some u =>
            (detect_cliproxy_restart s u.total_tokens u.total_requests
              env.now).2) := by
  refine ⟨import_preserves_state, ?_⟩
  intro env s lu
  obtain ⟨f, se, rf, n⟩ := env
  cases f with
  | none => rfl
  | some u =>
      simp only [broadcast_usage_update]
      split
      · rw [import_preserves_state]
        split
        · cases rf <;> rfl
        · rfl
      · rfl
